import Mathlib

/-!
Shallow embedding of `crates/trigger/src/loader.rs` (the `TriggerLoader`
component-loading layer) and proofs about it.

External collaborators (the `wit_parser` / `wit_component` crates, the
filesystem, `spin_componentize`, and the `spin_core` engine) are modelled as
explicit environment records of deterministic functions; the loader code
itself is translated statement-by-statement.  Rust `panic` sites (the two
`Option::unwrap` calls and the trailing `todo` macro in
`adapt_old_worlds_to_new`) are modelled as a dedicated `panic` outcome,
distinct from an `Err` result.
-/

namespace SpinLoader

/-- Result of running a fallible Rust computation: an `Ok` value, a recoverable
`Err` propagated with the question-mark operator, or a process-aborting panic. -/
inductive Outcome (ε : Type) (α : Type) where
  | ok (a : α)
  | err (e : ε)
  | panic (msg : String)
deriving DecidableEq, Repr

/-- Rust `std::borrow::Cow`: either a borrowed reference to the input or an
owned (freshly allocated) value. -/
inductive Cow (α : Type) where
  | borrowed (a : α)
  | owned (a : α)
deriving DecidableEq, Repr

/-- The underlying value of a `Cow`, as produced by `as_ref` / deref. -/
def Cow.val {α : Type} : Cow α → α
  | .borrowed a => a
  | .owned a => a

/-- Rust `std::path::PathBuf`, modelled as an absolute-path flag plus a list of
components. -/
structure Path where
  absolute : Bool
  components : List String
deriving DecidableEq, Repr

/-- Rust `PathBuf::join` semantics: if the argument is an absolute path it
replaces the receiver entirely; otherwise components are appended. -/
def Path.join (base p : Path) : Path :=
  if p.absolute then p else ⟨base.absolute, base.components ++ p.components⟩

/-- The resolution the spec describes in claim C7: the working directory
"extended by" the parsed source path.  Stated from the spec words, for
comparison with the `Path.join` taken from the source. -/
def Path.extend (base p : Path) : Path :=
  ⟨base.absolute, base.components ++ p.components⟩

/-- Rust `wit_parser::PackageName { namespace, name, version }`. -/
structure PackageName where
  «namespace» : String
  name : String
  version : Option String
deriving DecidableEq, Repr

/-- Rust `wit_parser::Resolve`, abstracted to the one piece of state the loader
reads directly: the `package_names` map. -/
structure Resolve where
  package_names : PackageName → Option Nat

/-- The `wit_parser` crate operations used by `adapt_old_worlds_to_new`,
modelled as deterministic functions (their results depend only on the
`Resolve` state, the arguments, and the fixed on-disk wit directories, all of
which this record captures). -/
structure WitParser where
  new : Resolve
  push_dir : Resolve → String → Except String Resolve
  select_world : Resolve → Nat → Option String → Except String Nat
  merge_worlds : Resolve → Nat → Nat → Except String Resolve

/-- The `wit_component::targets` check: does the component binary conform to
the given world of the given resolve? -/
structure WitComponent where
  targets : Resolve → Nat → List Nat → Except String Unit

/-- The constant `concat!(env!("CARGO_MANIFEST_DIR"), "/wit")` from the source. -/
def SPIN_WIT_PATH : String := "CARGO_MANIFEST_DIR/wit"

/-- The constant `concat!(env!("CARGO_MANIFEST_DIR"), "/wasi")` from the source. -/
def WASI_WIT_PATH : String := "CARGO_MANIFEST_DIR/wasi"

/-- Panic message of `Option::unwrap` on `None`. -/
def UNWRAP_NONE_MSG : String := "Option::unwrap on None"

/-- Panic message of the trailing todo macro in `adapt_old_worlds_to_new`. -/
def TODO_MSG : String := "not yet implemented"

/-- The package name `fermyon:spin` looked up in `adapt_old_worlds_to_new`. -/
def fermyon_spin : PackageName :=
  { «namespace» := "fermyon", name := "spin", version := none }

/-- The package name `wasmtime:wasi` looked up in `adapt_old_worlds_to_new`. -/
def wasmtime_wasi : PackageName :=
  { «namespace» := "wasmtime", name := "wasi", version := none }

/-- The world name `"platform"` selected from the spin package. -/
def PLATFORM_WORLD : String := "platform"

/-- The world name `"preview1-adapter-reactor"` selected from the wasi package. -/
def WASI_WORLD : String := "preview1-adapter-reactor"

/-- Function `adapt_old_worlds_to_new` from `loader.rs`, line by line: build a fresh
`Resolve`; push the spin wit directory; look up `fermyon:spin` (unwrap —
panics if absent); select its `platform` world; push the wasi directory; look
up `wasmtime:wasi` (unwrap); select its `preview1-adapter-reactor` world;
merge the wasi world into the spin world; if `targets` accepts the component
return it borrowed (pass-through), otherwise hit the todo stub, which panics. -/
def adapt_old_worlds_to_new (wp : WitParser) (wc : WitComponent)
    (component : List Nat) : Outcome String (Cow (List Nat)) :=
  match wp.push_dir wp.new SPIN_WIT_PATH with
  | .error e => .err e
  | .ok resolve₁ =>
    match resolve₁.package_names fermyon_spin with
    | none => .panic UNWRAP_NONE_MSG
    | some pkg =>
      match wp.select_world resolve₁ pkg (some PLATFORM_WORLD) with
      | .error e => .err e
      | .ok spin_world =>
        match wp.push_dir resolve₁ WASI_WIT_PATH with
        | .error e => .err e
        | .ok resolve₂ =>
          match resolve₂.package_names wasmtime_wasi with
          | none => .panic UNWRAP_NONE_MSG
          | some pkg₂ =>
            match wp.select_world resolve₂ pkg₂ (some WASI_WORLD) with
            | .error e => .err e
            | .ok wasi_world =>
              match wp.merge_worlds resolve₂ wasi_world spin_world with
              | .error e => .err e
              | .ok resolve₃ =>
                match wc.targets resolve₃ spin_world component with
                | .ok _ => .ok (.borrowed component)
                | .error _ => .panic TODO_MSG

/-- Rust `spin_app::locked::ContentRef`, reduced to the field the loader reads:
the optional `source` URI. -/
structure ContentRef where
  source : Option String
deriving DecidableEq, Repr

/-- Rust `spin_app::locked::LockedComponentSource`: a content reference. -/
structure LockedComponentSource where
  content : ContentRef
deriving DecidableEq, Repr

/-- A files-mount entry (`ContentPath`): a content reference plus the guest
path it is mounted at. -/
structure ContentPath where
  content : ContentRef
  path : String
deriving DecidableEq, Repr

/-- Errors surfaced by the loader operations, one constructor per `?` /
`context` / `ensure` site in `loader.rs`. -/
inductive LoadError where
  /-- Error context: LockedComponentSource missing source field. -/
  | missingSourceField
  /-- Failure of `parse_file_url`. -/
  | invalidSource (msg : String)
  /-- Failure of `fs::read` with its path context. -/
  | readError (path : Path)
  /-- Failure of `spin_componentize::componentize_if_necessary`. -/
  | componentizeError (msg : String)
  /-- An error propagated out of `adapt_old_worlds_to_new`. -/
  | adaptError (msg : String)
  /-- Engine compilation failure with a loading-module path context. -/
  | compileError (path : Path)
deriving DecidableEq, Repr

/-- Errors surfaced by `mount_files`, one constructor per failure site. -/
inductive MountError where
  /-- Error context: missing source on files mount. -/
  | missingSource (entry : ContentPath)
  /-- Failure of `parse_file_url`. -/
  | invalidSource (msg : String)
  /-- Failure of the directory check on the resolved source path. -/
  | notADirectory (path : Path)
deriving DecidableEq, Repr

/-- Access mode of a registered preopened directory. -/
inductive AccessMode where
  | readOnly
  | readWrite
deriving DecidableEq, Repr

/-- One preopen directive registered on the sandbox builder: host directory,
guest path, access mode. -/
structure Preopen where
  host : Path
  guest : String
  mode : AccessMode
deriving DecidableEq, Repr

/-- Rust `spin_core::StoreBuilder`, abstracted to the list of preopen directives
registered on it (the only calls the loader makes). -/
structure StoreBuilder where
  preopens : List Preopen
deriving DecidableEq, Repr

/-- Method `StoreBuilder::read_write_preopened_dir`: registers a read-write preopen. -/
def StoreBuilder.read_write_preopened_dir (sb : StoreBuilder) (host : Path)
    (guest : String) : StoreBuilder :=
  ⟨sb.preopens ++ [⟨host, guest, .readWrite⟩]⟩

/-- Method `StoreBuilder::read_only_preopened_dir`: registers a read-only preopen. -/
def StoreBuilder.read_only_preopened_dir (sb : StoreBuilder) (host : Path)
    (guest : String) : StoreBuilder :=
  ⟨sb.preopens ++ [⟨host, guest, .readOnly⟩]⟩

/-- The external collaborators of the loader other than `wit_parser` /
`wit_component`: URL parsing, the filesystem, the componentize transform, and
the execution engine (compiled artifacts are opaque handles, modelled as
`Nat`). All are deterministic functions of their arguments and the fixed
process state this record captures. -/
structure LoaderEnv where
  parse_file_url : String → Except String Path
  read : Path → Except String (List Nat)
  componentize_if_necessary : List Nat → Except String (Cow (List Nat))
  component_new : List Nat → Except String Nat
  module_from_file : Path → Except String Nat
  is_dir : Path → Bool

/-- Struct `TriggerLoader { working_dir, allow_transient_write }`. -/
structure TriggerLoader where
  working_dir : Path
  allow_transient_write : Bool
deriving DecidableEq, Repr

/-- Method `TriggerLoader::load_component`, parameterised over the adaptation
function it calls (instantiated with `adapt_old_worlds_to_new` in
`load_component`): take the `source` field (erroring if absent), parse it to
a path, read the bytes, componentize if necessary (the emitted terminal
warning does not affect control flow and is not modelled), adapt, and compile
the adapted bytes against the engine.  A panic inside the adaptation step
propagates as a panic. -/
def load_component_with (env : LoaderEnv)
    (adapt : List Nat → Outcome String (Cow (List Nat)))
    (source : LockedComponentSource) : Outcome LoadError Nat :=
  match source.content.source with
  | none => .err .missingSourceField
  | some s =>
    match env.parse_file_url s with
    | .error e => .err (.invalidSource e)
    | .ok path =>
      match env.read path with
      | .error _ => .err (.readError path)
      | .ok bytes =>
        match env.componentize_if_necessary bytes with
        | .error e => .err (.componentizeError e)
        | .ok component =>
          match adapt component.val with
          | .panic m => .panic m
          | .err e => .err (.adaptError e)
          | .ok component₂ =>
            match env.component_new component₂.val with
            | .error _ => .err (.compileError path)
            | .ok c => .ok c

/-- Method `TriggerLoader::load_component` proper: the pipeline above with the
adaptation step fixed to `adapt_old_worlds_to_new`. -/
def load_component (env : LoaderEnv) (wp : WitParser) (wc : WitComponent)
    (source : LockedComponentSource) : Outcome LoadError Nat :=
  load_component_with env (adapt_old_worlds_to_new wp wc) source

/-- Method `TriggerLoader::load_module`: take the `source` field (erroring if
absent), parse it to a path, and compile the core module directly from the
file — no read into the loader, no componentization, no adaptation. -/
def load_module (env : LoaderEnv) (source : LockedComponentSource) :
    Outcome LoadError Nat :=
  match source.content.source with
  | none => .err .missingSourceField
  | some s =>
    match env.parse_file_url s with
    | .error e => .err (.invalidSource e)
    | .ok path =>
      match env.module_from_file path with
      | .error _ => .err (.compileError path)
      | .ok m => .ok m

/-- Method `TriggerLoader::mount_files`: for each files entry in order, take its
`source` (erroring if absent), parse it, join it onto the working directory,
require the result to be a directory, and register one preopen — read-write
when `allow_transient_write`, read-only otherwise.  The Rust function mutates
the builder in place and returns `Result<()>`; the embedding returns the
final builder state alongside the result, so mutations made before a failure
are visible. -/
def mount_files (ld : TriggerLoader) (env : LoaderEnv) (sb : StoreBuilder) :
    List ContentPath → StoreBuilder × Except MountError Unit
  | [] => (sb, .ok ())
  | content_dir :: rest =>
    match content_dir.content.source with
    | none => (sb, .error (.missingSource content_dir))
    | some source_uri =>
      match env.parse_file_url source_uri with
      | .error e => (sb, .error (.invalidSource e))
      | .ok p =>
        let source_path := ld.working_dir.join p
        if env.is_dir source_path then
          let guest_path := content_dir.path
          let sb' :=
            if ld.allow_transient_write then
              sb.read_write_preopened_dir source_path guest_path
            else
              sb.read_only_preopened_dir source_path guest_path
          mount_files ld env sb' rest
        else
          (sb, .error (.notADirectory source_path))

/-! Concrete environments used to witness the theorems below on concrete
inputs. -/

/-- Message used by the rejecting `targets` environment. -/
def NO_CONFORM_MSG : String := "component does not conform to world"

/-- A resolve with no packages (the state right after `Resolve::new`). -/
def resolveEmpty : Resolve := ⟨fun _ => none⟩

/-- A resolve holding only the `fermyon:spin` package. -/
def resolveSpin : Resolve :=
  ⟨fun p => if p = fermyon_spin then some 0 else none⟩

/-- A resolve holding the `fermyon:spin` and `wasmtime:wasi` packages. -/
def resolveFull : Resolve :=
  ⟨fun p =>
    if p = fermyon_spin then some 0
    else if p = wasmtime_wasi then some 1
    else none⟩

/-- A well-behaved wit environment: pushing the spin directory yields
`resolveSpin`, pushing any other directory yields `resolveFull`; world
selection and merging always succeed. -/
def demoWitParser : WitParser where
  new := resolveEmpty
  push_dir := fun _ d => if d = SPIN_WIT_PATH then .ok resolveSpin else .ok resolveFull
  select_world := fun _ pkg _ => .ok pkg
  merge_worlds := fun r _ _ => .ok r

/-- A wit environment whose directories parse but contain no packages at all. -/
def demoWitParserNoSpin : WitParser where
  new := resolveEmpty
  push_dir := fun _ _ => .ok resolveEmpty
  select_world := fun _ pkg _ => .ok pkg
  merge_worlds := fun r _ _ => .ok r

/-- A `targets` check that accepts every component. -/
def targetsAccept : WitComponent := ⟨fun _ _ _ => .ok ()⟩

/-- A `targets` check that rejects every component. -/
def targetsReject : WitComponent := ⟨fun _ _ _ => .error NO_CONFORM_MSG⟩

/-- The access mode `mount_files` uses for every directive:
read-write when `allow_transient_write`, read-only otherwise. -/
def mountMode (ld : TriggerLoader) : AccessMode :=
  if ld.allow_transient_write then .readWrite else .readOnly

/-- Does a mount entry process successfully: a present source, a parsable
URL, and a resolved path that is a directory? -/
def isGoodEntry (ld : TriggerLoader) (env : LoaderEnv) (e : ContentPath) :
    Bool :=
  match e.content.source with
  | none => false
  | some uri =>
    match env.parse_file_url uri with
    | .error _ => false
    | .ok p => env.is_dir (ld.working_dir.join p)

/-- The preopen directive `mount_files` registers for a successfully
processed entry (junk directive for entries that fail; only applied under
`isGoodEntry`). -/
def entryDirective (ld : TriggerLoader) (env : LoaderEnv) (e : ContentPath) :
    Preopen :=
  match e.content.source with
  | none => ⟨ld.working_dir, e.path, mountMode ld⟩
  | some uri =>
    match env.parse_file_url uri with
    | .error _ => ⟨ld.working_dir, e.path, mountMode ld⟩
    | .ok p => ⟨ld.working_dir.join p, e.path, mountMode ld⟩

/-- The mode-independent part of a preopen directive: its host and guest
paths. -/
def hostGuest (d : Preopen) : Path × String := (d.host, d.guest)

/-- The pass-through-versus-adapt decision taken by
`adapt_old_worlds_to_new`: `some true` when the direct `targets` check
accepts (pass-through), `some false` when it rejects (adaptation branch),
`none` when a setup step fails or panics before the check is reached. -/
def adapt_decision (wp : WitParser) (wc : WitComponent) (b : List Nat) :
    Option Bool :=
  match wp.push_dir wp.new SPIN_WIT_PATH with
  | .error _ => none
  | .ok resolve₁ =>
    match resolve₁.package_names fermyon_spin with
    | none => none
    | some pkg =>
      match wp.select_world resolve₁ pkg (some PLATFORM_WORLD) with
      | .error _ => none
      | .ok spin_world =>
        match wp.push_dir resolve₁ WASI_WIT_PATH with
        | .error _ => none
        | .ok resolve₂ =>
          match resolve₂.package_names wasmtime_wasi with
          | none => none
          | some pkg₂ =>
            match wp.select_world resolve₂ pkg₂ (some WASI_WORLD) with
            | .error _ => none
            | .ok wasi_world =>
              match wp.merge_worlds resolve₂ wasi_world spin_world with
              | .error _ => none
              | .ok resolve₃ =>
                match wc.targets resolve₃ spin_world b with
                | .ok _ => some true
                | .error _ => some false

/-- Working directory used by the demo loader. -/
def wdDemo : Path := ⟨true, ["work"]⟩

/-- A relative parsed source path whose resolution is a directory. -/
def pGood : Path := ⟨false, ["assets"]⟩

/-- A relative parsed source path whose resolution is a plain file. -/
def pBad : Path := ⟨false, ["file.txt"]⟩

/-- An absolute parsed source path (as `parse_file_url` yields for
`file://` URLs). -/
def pAbs : Path := ⟨true, ["opt", "data"]⟩

/-- The resolved host path of `pGood` under `wdDemo`. -/
def hostGood : Path := ⟨true, ["work", "assets"]⟩

/-- Source URI parsing to `pGood`. -/
def URI_GOOD : String := "file-assets"

/-- Source URI parsing to `pBad`. -/
def URI_BAD : String := "file-bad"

/-- Source URI parsing to `pAbs`. -/
def URI_ABS : String := "file-abs"

/-- Message of the failing `parse_file_url` in the demo environment. -/
def PARSE_FAIL_MSG : String := "unsupported URL scheme"

/-- A concrete loader environment: three parsable URIs, reads succeed,
componentization wraps the bytes behind a leading 0 byte (an owned result),
compilation succeeds, and exactly the resolution of `pGood` is a directory. -/
def envDemo : LoaderEnv where
  parse_file_url := fun s =>
    if s = URI_GOOD then .ok pGood
    else if s = URI_BAD then .ok pBad
    else if s = URI_ABS then .ok pAbs
    else .error PARSE_FAIL_MSG
  read := fun _ => .ok [0, 97]
  componentize_if_necessary := fun b => .ok (.owned (0 :: b))
  component_new := fun _ => .ok 1
  module_from_file := fun _ => .ok 2
  is_dir := fun p => decide (p = hostGood)

/-- A loader environment whose `is_dir` accepts everything (used for the
absolute-path counterexample). -/
def envAllDirs : LoaderEnv where
  parse_file_url := fun s =>
    if s = URI_ABS then .ok pAbs else .error PARSE_FAIL_MSG
  read := fun _ => .ok [0, 97]
  componentize_if_necessary := fun b => .ok (.owned (0 :: b))
  component_new := fun _ => .ok 1
  module_from_file := fun _ => .ok 2
  is_dir := fun _ => true

/-- A mount entry whose resolved source is a directory. -/
def goodEntry : ContentPath := ⟨⟨some URI_GOOD⟩, "/data"⟩

/-- A mount entry whose resolved source is not a directory. -/
def badEntry : ContentPath := ⟨⟨some URI_BAD⟩, "/bad"⟩

/-- A mount entry whose parsed source path is absolute. -/
def absEntry : ContentPath := ⟨⟨some URI_ABS⟩, "/abs"⟩

/-- A locked component source pointing at `URI_GOOD`. -/
def srcDemo : LockedComponentSource := ⟨⟨some URI_GOOD⟩⟩

/-- A locked component source with no `source` field. -/
def srcMissing : LockedComponentSource := ⟨⟨none⟩⟩

/-- Component-shape test used in the C4 witness: bytes starting with a 0
byte (the shape `envDemo`'s componentizer always produces). -/
def isComponentDemo (b : List Nat) : Bool := b.head? == some 0

/-- An adaptation function that passes every binary through. -/
def adaptIdDemo (b : List Nat) : Outcome String (Cow (List Nat)) :=
  .ok (.borrowed b)

/-- An adaptation function that passes component-shaped binaries through and
rejects everything else; agrees with `adaptIdDemo` on component shapes. -/
def adaptAltDemo (b : List Nat) : Outcome String (Cow (List Nat)) :=
  if isComponentDemo b then .ok (.borrowed b) else .err NO_CONFORM_MSG

/-- C1: when the wit setup steps succeed and the direct `targets` check
accepts the component, `adapt_old_worlds_to_new` returns the input bytes
unchanged as a borrowed pass-through: the result is exactly
`Ok (Cow.borrowed component)`, byte-identical to the input, with no new
allocation. -/
theorem adapt_passthrough_of_conformant
    (wp : WitParser) (wc : WitComponent) (component : List Nat)
    (r₁ : Resolve) (h₁ : wp.push_dir wp.new SPIN_WIT_PATH = .ok r₁)
    (p₁ : Nat) (h₂ : r₁.package_names fermyon_spin = some p₁)
    (w₁ : Nat) (h₃ : wp.select_world r₁ p₁ (some PLATFORM_WORLD) = .ok w₁)
    (r₂ : Resolve) (h₄ : wp.push_dir r₁ WASI_WIT_PATH = .ok r₂)
    (p₂ : Nat) (h₅ : r₂.package_names wasmtime_wasi = some p₂)
    (w₂ : Nat) (h₆ : wp.select_world r₂ p₂ (some WASI_WORLD) = .ok w₂)
    (r₃ : Resolve) (h₇ : wp.merge_worlds r₂ w₂ w₁ = .ok r₃)
    (h₈ : wc.targets r₃ w₁ component = .ok ()) :
    adapt_old_worlds_to_new wp wc component = .ok (.borrowed component) := by
  simp [adapt_old_worlds_to_new, h₁, h₂, h₃, h₄, h₅, h₆, h₇, h₈]

/-- Witness for C1 at a concrete environment and concrete bytes. -/
theorem adapt_passthrough_of_conformant_witness :
    adapt_old_worlds_to_new demoWitParser targetsAccept [7, 7]
      = .ok (.borrowed [7, 7]) :=
  adapt_passthrough_of_conformant demoWitParser targetsAccept [7, 7]
    resolveSpin rfl 0 rfl 0 rfl resolveFull rfl 1 rfl 1 rfl resolveFull rfl rfl

/-- C2 (code behaviour at the failing input): with a well-formed wit
environment and a component the direct check rejects, the adaptation branch
of `adapt_old_worlds_to_new` does not compose with an adapter and does not
return an `IncompatibleWorld` error: it hits the todo stub and panics. -/
theorem adapt_nonconformant_hits_todo :
    adapt_old_worlds_to_new demoWitParser targetsReject [9]
      = .panic TODO_MSG := rfl

/-- C10: if the wit directories parse successfully but the resulting resolve
has no `fermyon:spin` package — or, further along, no `wasmtime:wasi`
package — `adapt_old_worlds_to_new` panics with the `Option::unwrap` panic
instead of returning an error result; and any panic of the adaptation step
propagates as a panic of `load_component` (never as a per-component `Err`). -/
theorem adapt_missing_package_panics (wp : WitParser) (wc : WitComponent)
    (b : List Nat) (r₁ : Resolve)
    (h₁ : wp.push_dir wp.new SPIN_WIT_PATH = .ok r₁) :
    (r₁.package_names fermyon_spin = none →
      adapt_old_worlds_to_new wp wc b = .panic UNWRAP_NONE_MSG) ∧
    (∀ p₁ w₁ r₂, r₁.package_names fermyon_spin = some p₁ →
      wp.select_world r₁ p₁ (some PLATFORM_WORLD) = .ok w₁ →
      wp.push_dir r₁ WASI_WIT_PATH = .ok r₂ →
      r₂.package_names wasmtime_wasi = none →
      adapt_old_worlds_to_new wp wc b = .panic UNWRAP_NONE_MSG) ∧
    (∀ (env : LoaderEnv) (src : LockedComponentSource) (m : String),
      adapt_old_worlds_to_new wp wc b = .panic m →
      ∀ s path bytes c, src.content.source = some s →
        env.parse_file_url s = .ok path →
        env.read path = .ok bytes →
        env.componentize_if_necessary bytes = .ok c →
        c.val = b →
        load_component env wp wc src = .panic m) := by
  refine ⟨?_, ?_, ?_⟩
  · intro h₂
    simp [adapt_old_worlds_to_new, h₁, h₂]
  · intro p₁ w₁ r₂ h₂ h₃ h₄ h₅
    simp [adapt_old_worlds_to_new, h₁, h₂, h₃, h₄, h₅]
  · intro env src m hpanic s path bytes c hs hparse hread hcomp hval
    simp [load_component, load_component_with, hs, hparse, hread, hcomp, hval,
      hpanic]

/-- Witness for C10: a concrete environment whose parsed directories hold no
`fermyon:spin` package makes `adapt_old_worlds_to_new` panic. -/
theorem adapt_missing_package_panics_witness :
    adapt_old_worlds_to_new demoWitParserNoSpin targetsAccept [3]
      = .panic UNWRAP_NONE_MSG :=
  (adapt_missing_package_panics demoWitParserNoSpin targetsAccept [3]
    resolveEmpty rfl).1 rfl

/-- Helper: over entries that all process successfully, `mount_files`
appends exactly one directive per entry, in order, and returns `Ok`. -/
theorem mount_files_all_good (ld : TriggerLoader) (env : LoaderEnv) :
    ∀ (files : List ContentPath) (sb : StoreBuilder),
      (∀ e ∈ files, isGoodEntry ld env e = true) →
      mount_files ld env sb files
        = (⟨sb.preopens ++ files.map (entryDirective ld env)⟩, .ok ()) := by
  intro files
  induction files with
  | nil => intro sb _; simp [mount_files]
  | cons e rest ih =>
    intro sb h
    have hgood : isGoodEntry ld env e = true := h e (by simp)
    have hrest : ∀ x ∈ rest, isGoodEntry ld env x = true :=
      fun x hx => h x (by simp [hx])
    rcases he : e.content.source with _ | uri
    · simp [isGoodEntry, he] at hgood
    · rcases hp : env.parse_file_url uri with msg | p
      · simp [isGoodEntry, he, hp] at hgood
      · have hdir : env.is_dir (ld.working_dir.join p) = true := by
          simpa [isGoodEntry, he, hp] using hgood
        cases hw : ld.allow_transient_write
        · simp only [mount_files, he, hp, hdir, hw, if_true, Bool.false_eq_true,
            if_false]
          rw [ih _ hrest]
          simp [StoreBuilder.read_only_preopened_dir, entryDirective, he, hp,
            mountMode, hw]
        · simp only [mount_files, he, hp, hdir, hw, if_true]
          rw [ih _ hrest]
          simp [StoreBuilder.read_write_preopened_dir, entryDirective, he, hp,
            mountMode, hw]

/-- Helper: the first entry whose resolved source path is not a directory
stops `mount_files` with a `notADirectory` error; the directives of the
earlier entries are in place, none is added for the failing entry, and the
remaining entries are not processed. -/
theorem mount_files_stops_at_bad (ld : TriggerLoader) (env : LoaderEnv) :
    ∀ (pre : List ContentPath) (sb : StoreBuilder) (bad : ContentPath)
      (post : List ContentPath) (uri : String) (p : Path),
      (∀ e ∈ pre, isGoodEntry ld env e = true) →
      bad.content.source = some uri →
      env.parse_file_url uri = .ok p →
      env.is_dir (ld.working_dir.join p) = false →
      mount_files ld env sb (pre ++ bad :: post)
        = (⟨sb.preopens ++ pre.map (entryDirective ld env)⟩,
           .error (.notADirectory (ld.working_dir.join p))) := by
  intro pre
  induction pre with
  | nil =>
    intro sb bad post uri p _ hb hp hdir
    simp [mount_files, hb, hp, hdir]
  | cons e rest ih =>
    intro sb bad post uri p h hb hp hdir
    have hgood : isGoodEntry ld env e = true := h e (by simp)
    have hrest : ∀ x ∈ rest, isGoodEntry ld env x = true :=
      fun x hx => h x (by simp [hx])
    rcases he : e.content.source with _ | uri₁
    · simp [isGoodEntry, he] at hgood
    · rcases hp₁ : env.parse_file_url uri₁ with msg | p₁
      · simp [isGoodEntry, he, hp₁] at hgood
      · have hdir₁ : env.is_dir (ld.working_dir.join p₁) = true := by
          simpa [isGoodEntry, he, hp₁] using hgood
        cases hw : ld.allow_transient_write
        · simp only [List.cons_append, mount_files, he, hp₁, hdir₁, hw,
            if_true, Bool.false_eq_true, if_false, List.append_eq]
          rw [ih _ bad post uri p hrest hb hp hdir]
          simp [StoreBuilder.read_only_preopened_dir, entryDirective, he, hp₁,
            mountMode, hw]
        · simp only [List.cons_append, mount_files, he, hp₁, hdir₁, hw,
            if_true, List.append_eq]
          rw [ih _ bad post uri p hrest hb hp hdir]
          simp [StoreBuilder.read_write_preopened_dir, entryDirective, he, hp₁,
            mountMode, hw]

/-- C3: per mount entry, `mount_files` registers exactly one preopen
directive with the configured access mode when the resolved source path is a
directory (first conjunct: one `entryDirective` per entry, appended in
order, success); when an entry's resolved source path is not a directory it
returns a `notADirectory` error, registers no directive for that entry,
processes no later entry, and keeps the directives of the earlier entries in
place (second conjunct). -/
theorem mount_files_directory_invariant (ld : TriggerLoader) (env : LoaderEnv) :
    (∀ files sb, (∀ e ∈ files, isGoodEntry ld env e = true) →
      mount_files ld env sb files
        = (⟨sb.preopens ++ files.map (entryDirective ld env)⟩, .ok ())) ∧
    (∀ pre sb bad post uri p,
      (∀ e ∈ pre, isGoodEntry ld env e = true) →
      bad.content.source = some uri →
      env.parse_file_url uri = .ok p →
      env.is_dir (ld.working_dir.join p) = false →
      mount_files ld env sb (pre ++ bad :: post)
        = (⟨sb.preopens ++ pre.map (entryDirective ld env)⟩,
           .error (.notADirectory (ld.working_dir.join p)))) :=
  ⟨mount_files_all_good ld env, mount_files_stops_at_bad ld env⟩

/-- Witness for C3: one good entry mounts read-only (the loader is
configured without transient writes); a following bad entry stops the run
with `notADirectory`, keeping the good entry's directive and ignoring the
trailing entry. -/
theorem mount_files_directory_invariant_witness :
    mount_files ⟨wdDemo, false⟩ envDemo ⟨[]⟩ [goodEntry, badEntry, absEntry]
      = (⟨[⟨hostGood, goodEntry.path, .readOnly⟩]⟩,
         .error (.notADirectory (wdDemo.join pBad))) := by
  have h := (mount_files_directory_invariant ⟨wdDemo, false⟩ envDemo).2
    [goodEntry] ⟨[]⟩ badEntry [absEntry] URI_BAD pBad
    (by decide) rfl rfl (by decide)
  simpa [entryDirective, goodEntry, envDemo, URI_GOOD, mountMode, wdDemo,
    pGood, hostGood, Path.join] using h

/-- Helper: toggling `allow_transient_write` changes neither which entries
process, nor the registered (host, guest) pairs, nor the returned result. -/
theorem mount_files_mode_independent (wd : Path) (env : LoaderEnv) :
    ∀ (files : List ContentPath) (sb₁ sb₂ : StoreBuilder),
      sb₁.preopens.map hostGuest = sb₂.preopens.map hostGuest →
      (mount_files ⟨wd, true⟩ env sb₁ files).1.preopens.map hostGuest
        = (mount_files ⟨wd, false⟩ env sb₂ files).1.preopens.map hostGuest ∧
      (mount_files ⟨wd, true⟩ env sb₁ files).2
        = (mount_files ⟨wd, false⟩ env sb₂ files).2 := by
  intro files
  induction files with
  | nil => intro sb₁ sb₂ h; constructor <;> simp [mount_files, h]
  | cons e rest ih =>
    intro sb₁ sb₂ h
    rcases he : e.content.source with _ | uri
    · constructor <;> simp [mount_files, he, h]
    · rcases hp : env.parse_file_url uri with m | p
      · constructor <;> simp [mount_files, he, hp, h]
      · cases hdir : env.is_dir (Path.join wd p)
        · constructor <;> simp [mount_files, he, hp, hdir, h]
        · have h' : (sb₁.read_write_preopened_dir (Path.join wd p)
                e.path).preopens.map hostGuest
              = (sb₂.read_only_preopened_dir (Path.join wd p)
                e.path).preopens.map hostGuest := by
            simp [StoreBuilder.read_write_preopened_dir,
              StoreBuilder.read_only_preopened_dir, hostGuest, h]
          have hih := ih _ _ h'
          constructor
          · simpa [mount_files, he, hp, hdir] using hih.1
          · simpa [mount_files, he, hp, hdir] using hih.2

/-- Helper: every directive registered by `mount_files` carries the loader's
configured access mode, provided the initial builder's directives do. -/
theorem mount_files_modes (ld : TriggerLoader) (env : LoaderEnv) :
    ∀ (files : List ContentPath) (sb : StoreBuilder),
      (∀ d ∈ sb.preopens, d.mode = mountMode ld) →
      ∀ d ∈ (mount_files ld env sb files).1.preopens, d.mode = mountMode ld := by
  intro files
  induction files with
  | nil => intro sb h; simpa [mount_files] using h
  | cons e rest ih =>
    intro sb h
    rcases he : e.content.source with _ | uri
    · simpa [mount_files, he] using h
    · rcases hp : env.parse_file_url uri with m | p
      · simpa [mount_files, he, hp] using h
      · cases hdir : env.is_dir (ld.working_dir.join p)
        · simpa [mount_files, he, hp, hdir] using h
        · cases hw : ld.allow_transient_write
          · have h' : ∀ d ∈ (sb.read_only_preopened_dir
                (ld.working_dir.join p) e.path).preopens, d.mode = mountMode ld := by
              intro d hd
              have hd₂ : d ∈ sb.preopens
                  ∨ d = ⟨ld.working_dir.join p, e.path, .readOnly⟩ := by
                simpa [StoreBuilder.read_only_preopened_dir] using hd
              rcases hd₂ with hd' | hd'
              · exact h d hd'
              · subst hd'; simp [mountMode, hw]
            have hih := ih _ h'
            simpa [mount_files, he, hp, hdir, hw] using hih
          · have h' : ∀ d ∈ (sb.read_write_preopened_dir
                (ld.working_dir.join p) e.path).preopens, d.mode = mountMode ld := by
              intro d hd
              have hd₂ : d ∈ sb.preopens
                  ∨ d = ⟨ld.working_dir.join p, e.path, .readWrite⟩ := by
                simpa [StoreBuilder.read_write_preopened_dir] using hd
              rcases hd₂ with hd' | hd'
              · exact h d hd'
              · subst hd'; simp [mountMode, hw]
            have hih := ih _ h'
            simpa [mount_files, he, hp, hdir, hw] using hih

/-- C5: for a fixed working directory, environment and descriptor, running
`mount_files` with `allow_transient_write = true` versus `false` registers
directives for exactly the same (host path, guest path) pairs in the same
order and returns the same result, and the two runs differ only in the access
mode of each directive: all read-write under the flag, all read-only without
it. -/
theorem mount_files_write_flag_only_mode (wd : Path) (env : LoaderEnv)
    (files : List ContentPath) :
    ((mount_files ⟨wd, true⟩ env ⟨[]⟩ files).1.preopens.map hostGuest
      = (mount_files ⟨wd, false⟩ env ⟨[]⟩ files).1.preopens.map hostGuest) ∧
    ((mount_files ⟨wd, true⟩ env ⟨[]⟩ files).2
      = (mount_files ⟨wd, false⟩ env ⟨[]⟩ files).2) ∧
    (∀ d ∈ (mount_files ⟨wd, true⟩ env ⟨[]⟩ files).1.preopens,
      d.mode = .readWrite) ∧
    (∀ d ∈ (mount_files ⟨wd, false⟩ env ⟨[]⟩ files).1.preopens,
      d.mode = .readOnly) := by
  refine ⟨(mount_files_mode_independent wd env files ⟨[]⟩ ⟨[]⟩ rfl).1,
    (mount_files_mode_independent wd env files ⟨[]⟩ ⟨[]⟩ rfl).2, ?_, ?_⟩
  · have h := mount_files_modes ⟨wd, true⟩ env files ⟨[]⟩ (by simp)
    simpa [mountMode] using h
  · have h := mount_files_modes ⟨wd, false⟩ env files ⟨[]⟩ (by simp)
    simpa [mountMode] using h

/-- Witness for C5 on a concrete run with one mountable entry and one entry
that fails the directory check. -/
theorem mount_files_write_flag_only_mode_witness :
    ((mount_files ⟨wdDemo, true⟩ envDemo ⟨[]⟩
        [goodEntry, absEntry]).1.preopens.map hostGuest
      = (mount_files ⟨wdDemo, false⟩ envDemo ⟨[]⟩
          [goodEntry, absEntry]).1.preopens.map hostGuest) ∧
    Preopen.mode ⟨hostGood, goodEntry.path, .readWrite⟩ = .readWrite :=
  ⟨(mount_files_write_flag_only_mode wdDemo envDemo [goodEntry, absEntry]).1,
   (mount_files_write_flag_only_mode wdDemo envDemo [goodEntry, absEntry]).2.2.1
     ⟨hostGood, goodEntry.path, .readWrite⟩ (by decide)⟩

/-- C7 counterexample: for a mount entry whose parsed source path is
absolute, the registered host path is the parsed path itself — not the
working directory extended by the parsed path, as the claim states —
because `PathBuf::join` on an absolute path replaces the base. -/
theorem mount_files_absolute_not_extended :
    (mount_files ⟨wdDemo, false⟩ envAllDirs ⟨[]⟩ [absEntry]).1.preopens.map
        Preopen.host = [pAbs]
    ∧ pAbs ≠ wdDemo.extend pAbs := by decide

/-- C7 amended: `mount_files` registers the host path
`working_dir.join parsed_path`; for a relative parsed source path this is the
working directory extended by the parsed path, while an absolute parsed
source path replaces the working directory entirely. -/
theorem mount_files_resolves_against_working_dir
    (ld : TriggerLoader) (env : LoaderEnv) (sb : StoreBuilder)
    (e : ContentPath) (rest : List ContentPath) (uri : String) (p : Path)
    (hsrc : e.content.source = some uri)
    (hp : env.parse_file_url uri = .ok p)
    (hdir : env.is_dir (ld.working_dir.join p) = true) :
    mount_files ld env sb (e :: rest)
      = mount_files ld env
          ⟨sb.preopens ++ [⟨ld.working_dir.join p, e.path, mountMode ld⟩]⟩ rest
    ∧ (p.absolute = false → ld.working_dir.join p = ld.working_dir.extend p)
    ∧ (p.absolute = true → ld.working_dir.join p = p) := by
  refine ⟨?_, ?_, ?_⟩
  · cases hw : ld.allow_transient_write
    · simp [mount_files, hsrc, hp, hdir, hw,
        StoreBuilder.read_only_preopened_dir, mountMode]
    · simp [mount_files, hsrc, hp, hdir, hw,
        StoreBuilder.read_write_preopened_dir, mountMode]
  · intro ha; simp [Path.join, Path.extend, ha]
  · intro ha; simp [Path.join, ha]

/-- Witness for C7 amended, at a concrete relative parsed source path. -/
theorem mount_files_resolves_against_working_dir_witness :
    (mount_files ⟨wdDemo, false⟩ envDemo ⟨[]⟩ [goodEntry]
      = mount_files ⟨wdDemo, false⟩ envDemo
          ⟨[⟨wdDemo.join pGood, goodEntry.path, mountMode ⟨wdDemo, false⟩⟩]⟩ [])
    ∧ wdDemo.join pGood = wdDemo.extend pGood :=
  have h := mount_files_resolves_against_working_dir ⟨wdDemo, false⟩ envDemo
    ⟨[]⟩ goodEntry [] URI_GOOD pGood rfl rfl (by decide)
  ⟨h.1, h.2.1 rfl⟩

/-- C4: the adaptation step inside the `load_component` pipeline is only
ever applied to the output of `componentize_if_necessary`: under the
collaborator contract that componentization yields component-shaped bytes,
the result of `load_component_with` depends on the adaptation function only
through its values at component-shaped binaries — normalization always
completes before any compatibility checking, and adaptation is never applied
to a raw core module. -/
theorem load_component_adapts_only_componentized (env : LoaderEnv)
    (isComponent : List Nat → Bool)
    (hcomp : ∀ b c, env.componentize_if_necessary b = .ok c →
      isComponent c.val = true)
    (A₁ A₂ : List Nat → Outcome String (Cow (List Nat)))
    (hA : ∀ b, isComponent b = true → A₁ b = A₂ b)
    (src : LockedComponentSource) :
    load_component_with env A₁ src = load_component_with env A₂ src := by
  rcases hs : src.content.source with _ | s
  · simp [load_component_with, hs]
  · rcases hp : env.parse_file_url s with m | path
    · simp [load_component_with, hs, hp]
    · rcases hr : env.read path with m | bytes
      · simp [load_component_with, hs, hp, hr]
      · rcases hc : env.componentize_if_necessary bytes with m | c
        · simp [load_component_with, hs, hp, hr, hc]
        · simp [load_component_with, hs, hp, hr, hc,
            hA c.val (hcomp bytes c hc)]

/-- Witness for C4: two adaptation functions agreeing on component-shaped
bytes are interchangeable in a concrete pipeline run. -/
theorem load_component_adapts_only_componentized_witness :
    load_component_with envDemo adaptIdDemo srcDemo
      = load_component_with envDemo adaptAltDemo srcDemo :=
  load_component_adapts_only_componentized envDemo isComponentDemo
    (by
      intro b c h
      simp [envDemo] at h
      subst h
      simp [isComponentDemo, Cow.val])
    adaptIdDemo adaptAltDemo
    (by
      intro b hb
      simp [adaptIdDemo, adaptAltDemo, hb])
    srcDemo

/-- C6: the compatibility check and the adaptation decision of
`adapt_old_worlds_to_new` are deterministic pure functions of the binary and
the contract state (the wit environment): equal inputs give the identical
result and the identical pass-through-versus-adapt decision; moreover the
only successful result is the borrowed pass-through of the input bytes, and
it coincides with the decision being pass-through. -/
theorem adapt_deterministic (wp₁ wp₂ : WitParser) (wc₁ wc₂ : WitComponent)
    (b₁ b₂ : List Nat) (hwp : wp₁ = wp₂) (hwc : wc₁ = wc₂) (hb : b₁ = b₂) :
    adapt_old_worlds_to_new wp₁ wc₁ b₁ = adapt_old_worlds_to_new wp₂ wc₂ b₂ ∧
    adapt_decision wp₁ wc₁ b₁ = adapt_decision wp₂ wc₂ b₂ ∧
    (∀ out, adapt_old_worlds_to_new wp₁ wc₁ b₁ = .ok out →
      out = .borrowed b₁ ∧ adapt_decision wp₁ wc₁ b₁ = some true) := by
  subst hwp; subst hwc; subst hb
  refine ⟨rfl, rfl, ?_⟩
  intro out hout
  unfold adapt_old_worlds_to_new at hout
  unfold adapt_decision
  rcases h₁ : wp₁.push_dir wp₁.new SPIN_WIT_PATH with m | r₁
  · simp [h₁] at hout
  · rcases h₂ : r₁.package_names fermyon_spin with _ | p
    · simp [h₁, h₂] at hout
    · rcases h₃ : wp₁.select_world r₁ p (some PLATFORM_WORLD) with m | w₁
      · simp [h₁, h₂, h₃] at hout
      · rcases h₄ : wp₁.push_dir r₁ WASI_WIT_PATH with m | r₂
        · simp [h₁, h₂, h₃, h₄] at hout
        · rcases h₅ : r₂.package_names wasmtime_wasi with _ | p₂
          · simp [h₁, h₂, h₃, h₄, h₅] at hout
          · rcases h₆ : wp₁.select_world r₂ p₂ (some WASI_WORLD) with m | w₂
            · simp [h₁, h₂, h₃, h₄, h₅, h₆] at hout
            · rcases h₇ : wp₁.merge_worlds r₂ w₂ w₁ with m | r₃
              · simp [h₁, h₂, h₃, h₄, h₅, h₆, h₇] at hout
              · rcases h₈ : wc₁.targets r₃ w₁ b₁ with m | u
                · simp [h₁, h₂, h₃, h₄, h₅, h₆, h₇, h₈] at hout
                · simp [h₁, h₂, h₃, h₄, h₅, h₆, h₇, h₈] at hout ⊢
                  exact hout.symm

/-- Witness for C6 at a concrete environment: the successful result at equal
inputs is the borrowed pass-through and the decision is pass-through. -/
theorem adapt_deterministic_witness :
    (Cow.borrowed [1] : Cow (List Nat)) = .borrowed [1] ∧
    adapt_decision demoWitParser targetsAccept [1] = some true :=
  (adapt_deterministic demoWitParser demoWitParser targetsAccept targetsAccept
    [1] [1] rfl rfl rfl).2.2 (.borrowed [1]) rfl

/-- C8: `load_module` compiles the core module directly from the resolved
path: with a present, parsable source its result is exactly the engine's
`module_from_file` on that path (first conjunct), and the result depends
only on `parse_file_url` and `module_from_file` — the reading,
classification, componentization and component-compilation facilities of the
environment are never consulted, and no wit contract state is even an input
(second conjunct). -/
theorem load_module_direct (env : LoaderEnv) (src : LockedComponentSource) :
    (∀ s path, src.content.source = some s →
      env.parse_file_url s = .ok path →
      load_module env src
        = match env.module_from_file path with
          | .error _ => .err (.compileError path)
          | .ok m => .ok m) ∧
    (∀ env₂ : LoaderEnv, env₂.parse_file_url = env.parse_file_url →
      env₂.module_from_file = env.module_from_file →
      load_module env₂ src = load_module env src) := by
  constructor
  · intro s path hs hp
    simp [load_module, hs, hp]
  · intro env₂ h₁ h₂
    simp [load_module, h₁, h₂]

/-- Witness for C8: the demo engine compiles the module at the resolved
path, and that is the whole result of `load_module`. -/
theorem load_module_direct_witness : load_module envDemo srcDemo = .ok 2 := by
  have h := (load_module_direct envDemo srcDemo).1 URI_GOOD pGood rfl rfl
  simpa [envDemo] using h

/-- C9: a descriptor entry whose content source field is absent makes
`load_component` and `load_module` fail with the missing-source-field error
for every environment and every wit contract state — so no path resolution,
file read, componentization, adaptation or compilation can have been
consulted. -/
theorem load_missing_source_field (src : LockedComponentSource)
    (h : src.content.source = none) :
    (∀ (env : LoaderEnv) (wp : WitParser) (wc : WitComponent),
      load_component env wp wc src = .err .missingSourceField) ∧
    (∀ env : LoaderEnv, load_module env src = .err .missingSourceField) := by
  constructor
  · intro env wp wc
    simp [load_component, load_component_with, h]
  · intro env
    simp [load_module, h]

/-- Witness for C9 at the concrete sourceless descriptor. -/
theorem load_missing_source_field_witness :
    load_component envDemo demoWitParser targetsAccept srcMissing
      = .err .missingSourceField ∧
    load_module envDemo srcMissing = .err .missingSourceField :=
  ⟨(load_missing_source_field srcMissing rfl).1 envDemo demoWitParser
     targetsAccept,
   (load_missing_source_field srcMissing rfl).2 envDemo⟩

end SpinLoader
